import Mathlib

set_option linter.unusedVariables false

/-!
Shallow embedding of `bot/services/purchase.py` (mayak_tickets_bot):
the three-phase ticket-purchase automation (prepare, confirm-and-pay,
complete-3DS) with its process-wide session registry, session expiry and
card-form filling helpers.  Browser interaction is modelled by explicit
environment records describing what the external page does at each
observation point; page text handed to keyword classifiers is given in
its lowercased form, as the code itself lowercases before matching.
-/

namespace Mayak

/-- Result record returned from every phase (`PurchaseResult` dataclass). -/
structure PurchaseResult where
  success : Bool
  payment_url : Option String := none
  error : Option String := none
  total_amount : Option String := none
  needs_sms : Bool := false
  deriving DecidableEq, Repr

/-- Browser handle state: whether it is still alive, and how many times the
underlying browser has actually been torn down. -/
structure Browser where
  alive : Bool
  teardowns : Nat
  deriving DecidableEq, Repr

/-- A purchase session (`PurchaseSession`): browser handles, extracted total,
owner, and the state of its auto-cleanup task. -/
structure Session where
  user_id : Nat
  browser : Browser
  pwAlive : Bool
  taskDone : Bool
  total_amount : Option String
  deriving DecidableEq, Repr

/-- `browser.close()`: tears the browser down when alive; raises when already
closed (second component is the raised message). -/
def Browser.closeAttempt (b : Browser) : Browser × Option String :=
  if b.alive then ({ alive := false, teardowns := b.teardowns + 1 }, none)
  else (b, some "Browser already closed")

/-- `pw.stop()`: may raise when already stopped. -/
def pwStopAttempt (alive : Bool) : Bool × Option String :=
  if alive then (false, none) else (false, some "Playwright already stopped")

/-- `PurchaseSession.close`: cancel the cleanup task, then
`try: browser.close() except: pass` and `try: pw.stop() except: pass`.
The second component is an exception escaping `close` — always `none`,
because both risky calls are wrapped. -/
def Session.closeE (s : Session) : Session × Option String :=
  let ba := s.browser.closeAttempt
  let pa := pwStopAttempt s.pwAlive
  ({ s with browser := ba.1, pwAlive := pa.1, taskDone := true }, none)

def Session.close (s : Session) : Session := s.closeE.1

/-- Fresh session as built by `prepare_purchase` on success. -/
def mkSession (uid : Nat) (total : Option String) : Session :=
  { user_id := uid
    browser := { alive := true, teardowns := 0 }
    pwAlive := true
    taskDone := false
    total_amount := total }

/-- The process-wide `_sessions` dict, `user_id → PurchaseSession`. -/
abbrev Registry := Nat → Option Session

def regRemove (uid : Nat) (reg : Registry) : Registry :=
  fun k => if k = uid then none else reg k

def regInsert (uid : Nat) (s : Session) (reg : Registry) : Registry :=
  fun k => if k = uid then some s else reg k

/-- `SESSION_TTL = 300` seconds (5 minutes) before auto-cleanup. -/
def SESSION_TTL : Nat := 300

/-- `PurchaseSession._auto_cleanup` after the TTL sleep:
`_sessions.pop(self.user_id, None); await self.close()`. -/
def auto_cleanup (s : Session) (reg : Registry) : Registry × Session :=
  (regRemove s.user_id reg, s.close)

/- ── String helpers: Python `needle in haystack` substring test ── -/

def charsPrefix : List Char → List Char → Bool
  | [], _ => true
  | _ :: _, [] => false
  | a :: as, b :: bs => a == b && charsPrefix as bs

def charsInfix (needle : List Char) : List Char → Bool
  | [] => charsPrefix needle []
  | c :: cs => charsPrefix needle (c :: cs) || charsInfix needle cs

def strContains (hay needle : String) : Bool :=
  charsInfix needle.data hay.data

/-- `any(w in low for w in words)`. -/
def hasAnyWord (low : String) (words : List String) : Bool :=
  words.any (fun w => strContains low w)

/-- Python `s.replace("/", "")`: drop every slash. -/
def stripSlashes (s : String) : String :=
  String.mk (s.data.filter (fun c => c ≠ '/'))

def splitChars (sep : Char) : List Char → List (List Char)
  | [] => [[]]
  | c :: cs =>
    let r := splitChars sep cs
    if c = sep then [] :: r
    else
      match r with
      | [] => [[c]]
      | h :: t => (c :: h) :: t

/-- Python `s.split("/")` for the single-character separator. -/
def splitSlash (s : String) : List String :=
  (splitChars '/' s.data).map String.mk

/- ── Candidate selector lists (module-level constants) ── -/

def CARD_SELECTORS : List String :=
  ["input[name=\"pan\"]",
   "input[autocomplete=\"cc-number\"]",
   "input[name*=\"cardNumber\"]",
   "input[name*=\"card_number\"]",
   "input[name*=\"card-number\"]",
   "input[placeholder*=\"Номер карты\"]",
   "input[placeholder*=\"Card number\"]",
   "input[data-field=\"pan\"]",
   "#pan",
   ".card-number-input input"]

def EXPIRY_SELECTORS : List String :=
  ["input[name=\"expiry\"]",
   "input[name=\"exp\"]",
   "input[name*=\"expDate\"]",
   "input[name*=\"expire\"]",
   "input[autocomplete=\"cc-exp\"]",
   "input[placeholder*=\"MM\"]",
   "input[placeholder*=\"ММ\"]",
   "input[data-field=\"expiry\"]"]

def CVV_SELECTORS : List String :=
  ["input[name=\"cvv\"]",
   "input[name=\"cvc\"]",
   "input[name*=\"cvv\"]",
   "input[name*=\"cvc\"]",
   "input[autocomplete=\"cc-csc\"]",
   "input[placeholder*=\"CVV\"]",
   "input[placeholder*=\"CVC\"]",
   "input[data-field=\"cvv\"]",
   "#cvv",
   "#cvc"]

def SMS_CODE_SELECTORS : List String :=
  ["input[name=\"password\"]",
   "input[autocomplete=\"one-time-code\"]",
   "input[name*=\"code\"]",
   "input[name*=\"otp\"]",
   "input[name*=\"sms\"]",
   "input[placeholder*=\"Код\"]",
   "input[placeholder*=\"код\"]",
   "input[placeholder*=\"SMS\"]",
   "input[placeholder*=\"Code\"]",
   "input[type=\"tel\"]",
   "input[type=\"password\"]",
   "input[data-field=\"code\"]",
   "#otp",
   "#code",
   "#smsCode"]

/-- Keyword vocabulary used by `_is_3ds_page`. -/
def TDS_INDICATORS : List String :=
  ["3-d secure", "3ds", "3d secure", "введите код", "enter code",
   "одноразовый пароль", "sms-код", "код подтверждения",
   "confirmation code", "secure code", "код из сообщения"]

def is_3ds_page (text_lower : String) : Bool :=
  hasAnyWord text_lower TDS_INDICATORS

/- ── `_try_fill`: probing a page or frame by a list of candidate selectors ──
A probe of one selector yields: `hit` (count > 0 and the click/type
succeeded), `miss` (no element matched), or `err` (an exception during the
per-selector block, swallowed by `except: continue`). -/

inductive Probe
  | hit
  | miss
  | err
  deriving DecidableEq, Repr

/-- `_try_fill`, returning the first selector that succeeded (if any).
Both `miss` and `err` continue to the next candidate, as in the source. -/
def try_fill_sel (t : String → Probe) : List String → Option String
  | [] => none
  | s :: rest => if t s = Probe.hit then some s else try_fill_sel t rest

def try_fill (t : String → Probe) (sels : List String) : Bool :=
  (try_fill_sel t sels).isSome

/-- A non-main frame: its selector probes and the result of
`frame.locator("input").count()` (`none` models that call raising). -/
structure BankFrame where
  probes : String → Probe
  inputCount : Option Nat

/-- The bank page: main-page probes plus the non-main frames in order. -/
structure BankPage where
  main : String → Probe
  frames : List BankFrame

/-- `_fill_card`'s iframe scan: first frame whose input count is ≥ 2 becomes
the target; a raising count call skips the frame; otherwise the main page. -/
def pickTarget (p : BankPage) : String → Probe :=
  match p.frames.find? (fun f =>
      match f.inputCount with
      | some n => decide (2 ≤ n)
      | none => false) with
  | some f => f.probes
  | none => p.main

def monthYearPairs : List (String × String) :=
  [("input[name=\"month\"]", "input[name=\"year\"]"),
   ("input[name*=\"month\"]", "input[name*=\"year\"]")]

/-- The separate month/year fallback: split on "/", and if exactly two parts,
try each (month, year) selector pair; both must match for `expiry_ok`. -/
def splitExpiry (t : String → Probe) (card_expiry : String) : Bool :=
  let parts := splitSlash card_expiry
  if parts.length = 2 then
    monthYearPairs.any (fun pr => t pr.1 = Probe.hit && t pr.2 = Probe.hit)
  else false

/-- Observable outcome of `_fill_card`: its return value plus what was
attempted and typed. -/
structure FillOut where
  ok : Bool
  card_ok : Bool
  cardValue : Option String
  expiryCombinedSel : Option String
  expiryValue : Option String
  usedSplit : Bool
  expiry_ok : Bool
  cvv_ok : Bool
  cvvValue : Option String
  deriving DecidableEq, Repr

/-- `_fill_card(page, card_number, card_expiry, card_cvv)`. -/
def fill_card (p : BankPage) (card_number card_expiry card_cvv : String) :
    FillOut :=
  let target := pickTarget p
  let cardSel := try_fill_sel target CARD_SELECTORS
  match cardSel with
  | none =>
      { ok := false, card_ok := false, cardValue := none,
        expiryCombinedSel := none, expiryValue := none, usedSplit := false,
        expiry_ok := false, cvv_ok := false, cvvValue := none }
  | some _ =>
      let card_ok := true
      let stripped := stripSlashes card_expiry
      let combSel := try_fill_sel target EXPIRY_SELECTORS
      let expiry_ok :=
        match combSel with
        | some _ => true
        | none => splitExpiry target card_expiry
      let cvvSel := try_fill_sel target CVV_SELECTORS
      let cvv_ok := cvvSel.isSome
      { ok := card_ok && cvv_ok
        card_ok := card_ok
        cardValue := some card_number
        expiryCombinedSel := combSel
        expiryValue := combSel.map (fun _ => stripped)
        usedSplit := combSel.isNone
        expiry_ok := expiry_ok
        cvv_ok := cvv_ok
        cvvValue := cvvSel.map (fun _ => card_cvv) }

example : strContains "payment success page" "success" = true := by decide
example : strContains "abc" "bd" = false := by decide
example : stripSlashes "12/25" = "1225" := by decide
example : splitSlash "12/25" = ["12", "25"] := by decide

/- ── Phase 1: the order page and the in-page fill script ── -/

def isSpaceChar (c : Char) : Bool :=
  c = ' ' || c = '\t' || c = '\n' || c = '\r'

/-- JS `textContent.trim()`. -/
def trimChars (s : String) : String :=
  String.mk (((s.data.dropWhile isSpaceChar).reverse.dropWhile isSpaceChar).reverse)

/-- The order page as observed by the fill script: which elements exist and
what text the price elements carry. -/
structure PrepPage where
  rangeOptions : Option (List String)
  hasPromoInput : Bool
  hasPromoBtn : Bool
  hasNameInput : Bool
  hasPhoneInput : Bool
  hasEmailInput : Bool
  hasPaymentRadio : Bool
  hasPlusBtn : Bool
  qtyInput : Option String
  totalText : Option String
  cardPriceText : Option String

/-- Structured result of the in-page script (`{success, total, log}` or
`{error, log}`). -/
structure JsResult where
  success : Bool
  total : Option String
  error : Option String
  jsLog : List String
  deriving DecidableEq, Repr

/-- Step 7 of the fill script: read `.summ_itog`; if it reads "0 ₽" or "0",
fall back to `.chek_ticket_price` on the ticket card. -/
def readTotal (p : PrepPage) (lg : List String) : JsResult :=
  let total0 :=
    match p.totalText with
    | some s => trimChars s
    | none => "?"
  let lg1 := lg ++ ["Total: " ++ total0]
  let tl :=
    if total0 = "0 ₽" || total0 = "0" then
      match p.cardPriceText with
      | some ptxt =>
          (trimChars ptxt, lg1 ++ ["Fallback price from card: " ++ trimChars ptxt])
      | none => (total0, lg1)
    else (total0, lg1)
  let lg3 := tl.2 ++
    ["Input value: " ++ (match p.qtyInput with | some v => v | none => "N/A")]
  { success := true, total := some tl.1, error := none, jsLog := lg3 }

/-- The whole `page.evaluate` fill script of `prepare_purchase`: slot
dropdown, promo, contacts, card radio, checkboxes, then the quantity "+"
click (with direct-value fallback), then the total read. -/
def jsFillForm (p : PrepPage) (timeRange promo name phone email : String) :
    JsResult :=
  let log1 : List String :=
    match p.rangeOptions with
    | some opts =>
        if timeRange ∈ opts then ["Range: " ++ timeRange]
        else
          match opts with
          | [] => []
          | o :: _ => ["Range fallback: " ++ o]
    | none => []
  let log2 : List String :=
    if promo ≠ "" then
      (if p.hasPromoInput then ["Promo set: " ++ promo] else []) ++
        (if p.hasPromoBtn then ["Promo apply clicked"] else [])
    else []
  let pre := log1 ++ log2 ++ ["Contacts filled"] ++
    (if p.hasPaymentRadio then ["Card selected"] else []) ++
    ["Checkboxes done"]
  if p.hasPlusBtn then
    readTotal p (pre ++ ["Plus clicked"])
  else
    match p.qtyInput with
    | some _ => readTotal p (pre ++ ["Direct input=1"])
    | none =>
        { success := false, total := none,
          error := some "No plus btn and no input", jsLog := pre }

/- ── Phase outcomes, events and the registry operations ── -/

/-- Outcome of a phase call: a returned `PurchaseResult`, or an exception
escaping the call unhandled. -/
inductive PhaseOut
  | res (r : PurchaseResult)
  | exn (msg : String)
  deriving DecidableEq, Repr

/-- Observable side effects of a phase call, in order of occurrence. -/
inductive Ev
  | closed (s : Session)
  | stored (uid : Nat)
  | paySubmit
  | tdsSubmit
  deriving DecidableEq, Repr

/-- `cancel_purchase`: `_sessions.pop(user_id, None)` and close if present. -/
def cancel_purchase (uid : Nat) (reg : Registry) : Registry × List Ev :=
  match reg uid with
  | some s => (regRemove uid reg, [Ev.closed s.close])
  | none => (reg, [])

/-- Environment for `prepare_purchase`: whether the import succeeds, whether
`async_playwright().start()` raises (that call sits before the `try`),
whether anything raises between `chromium.launch` and the evaluate call,
and the order page itself. -/
structure PrepareEnv where
  installed : Bool
  startError : Option String
  tryFault : Option String
  page : PrepPage

/-- `prepare_purchase(user_id, stadium_id, date, time_range, promo, name,
phone, email)`. -/
def prepare_purchase (env : PrepareEnv) (user_id stadium_id : Nat)
    (date time_range : String) (promo : Option String)
    (name phone email : String) (reg : Registry) :
    PhaseOut × Registry × List Ev :=
  let c := cancel_purchase user_id reg
  if env.installed = false then
    (.res { success := false, error := some "Playwright не установлен" },
     c.1, c.2)
  else
    match env.startError with
    | some m => (.exn m, c.1, c.2)
    | none =>
      match env.tryFault with
      | some m => (.res { success := false, error := some m }, c.1, c.2)
      | none =>
        let js := jsFillForm env.page time_range (promo.getD "") name phone email
        if js.success then
          (.res { success := true, total_amount := js.total },
           regInsert user_id (mkSession user_id js.total) c.1,
           c.2 ++ [Ev.stored user_id])
        else
          (.res { success := false,
                  error := some (js.error.getD "Неизвестная ошибка JS") },
           c.1, c.2)

/- ── Phase 2: confirm_and_pay ── -/

/-- Environment for `confirm_and_pay`. -/
structure PayEnv where
  fault : Option String
  urlAfterSubmit : String
  siteContentLow : String
  urlAfterWait : String
  bank : BankPage
  pollLow : Nat → String
  finalUrl : String

def SUCCESS_WORDS : List String := ["success", "paid", "успешно", "оплачен"]

inductive PayPoll
  | successAt (i : Nat)
  | tdsAt (i : Nat)
  | exhausted
  deriving DecidableEq, Repr

/-- The bounded result poll of `confirm_and_pay` (40 iterations): success
vocabulary first, then the 3-D-Secure indicators. -/
def runPayPoll (low : Nat → String) : Nat → Nat → PayPoll
  | 0, _ => .exhausted
  | fuel + 1, i =>
    let l := low i
    if hasAnyWord l SUCCESS_WORDS then .successAt i
    else if is_3ds_page l then .tdsAt i
    else runPayPoll low fuel (i + 1)

/-- The shared `finally` of phases 2 and 3: close the claimed session unless
it was re-inserted into the registry. -/
def finalizePhase (uid : Nat) (s : Session) :
    PurchaseResult × Registry × List Ev → PhaseOut × Registry × List Ev
  | (r, reg2, evs) =>
    (.res r, reg2,
     if reg2 uid = none then evs ++ [Ev.closed s.close] else evs)

/-- Card fill, bank-page submit and result poll of `confirm_and_pay`. -/
def payAtBank (env : PayEnv) (uid : Nat) (session : Session)
    (bank_url card_number card_expiry card_cvv : String)
    (reg1 : Registry) : PurchaseResult × Registry × List Ev :=
  let total := session.total_amount
  let filled := fill_card env.bank card_number card_expiry card_cvv
  if filled.ok = false then
    ({ success := false, payment_url := some bank_url,
       error := some "Не удалось заполнить карту автоматически. Откройте ссылку.",
       total_amount := total }, reg1, [])
  else
    match runPayPoll env.pollLow 40 0 with
    | .successAt _ =>
        ({ success := true, total_amount := total }, reg1, [Ev.paySubmit])
    | .tdsAt _ =>
        ({ success := false, total_amount := total, needs_sms := true,
           error := some "Банк запросил код из SMS для подтверждения." },
         regInsert uid session reg1, [Ev.paySubmit])
    | .exhausted =>
        ({ success := false, payment_url := some env.finalUrl,
           error := some "Статус оплаты неизвестен. Проверьте по ссылке.",
           total_amount := total }, reg1, [Ev.paySubmit])

/-- Body of the `try` of `confirm_and_pay`: submit the order form, detect
staying on the origin site, then the bank-page steps. -/
def confirmBody (env : PayEnv) (uid : Nat) (session : Session)
    (card_number card_expiry card_cvv : String) (reg1 : Registry) :
    PurchaseResult × Registry × List Ev :=
  let total := session.total_amount
  match env.fault with
  | some m =>
      ({ success := false, error := some m, total_amount := total }, reg1, [])
  | none =>
    if strContains env.urlAfterSubmit "sportvsegda.ru" then
      if hasAnyWord env.siteContentLow ["ошибк", "error"] then
        ({ success := false,
           error := some "Сайт вернул ошибку при оформлении заказа.",
           total_amount := total }, reg1, [])
      else if strContains env.urlAfterWait "sportvsegda.ru" then
        ({ success := false,
           error := some "Не удалось перейти на страницу банка.",
           total_amount := total }, reg1, [])
      else
        payAtBank env uid session env.urlAfterWait card_number card_expiry
          card_cvv reg1
    else
      payAtBank env uid session env.urlAfterSubmit card_number card_expiry
        card_cvv reg1

/-- `confirm_and_pay(user_id, card_number, card_expiry, card_cvv)`. -/
def confirm_and_pay (env : PayEnv) (user_id : Nat)
    (card_number card_expiry card_cvv : String) (reg : Registry) :
    PhaseOut × Registry × List Ev :=
  match reg user_id with
  | none =>
      (.res { success := false,
              error := some "Сессия истекла. Выберите сеанс заново." },
       reg, [])
  | some session =>
      finalizePhase user_id session
        (confirmBody env user_id session card_number card_expiry card_cvv
          (regRemove user_id reg))

/- ── Phase 3: complete_3ds ── -/

/-- Environment for `complete_3ds`. -/
structure TdsEnv where
  fault : Option String
  mainPage : String → Probe
  frames : List (String → Probe)
  pageUrl : String
  pollLow : Nat → String
  finalUrl : String
  finalLow : String

def WRONG_CODE_WORDS : List String :=
  ["неверный", "incorrect", "invalid", "wrong", "повторите"]

def DECLINE_WORDS : List String := ["отклонен", "declined", "fail", "ошибк"]

/-- The timeout re-check vocabulary of `complete_3ds` (note: no "paid"). -/
def FINAL_SUCCESS_WORDS : List String := ["success", "успешно", "оплачен"]

inductive TdsPoll
  | successAt (i : Nat)
  | wrongAt (i : Nat)
  | declinedAt (i : Nat)
  | exhausted
  deriving DecidableEq, Repr

/-- The bounded result poll of `complete_3ds` (60 iterations): success,
then wrong-code, then decline vocabulary, in that order. -/
def runTdsPoll (low : Nat → String) : Nat → Nat → TdsPoll
  | 0, _ => .exhausted
  | fuel + 1, i =>
    let l := low i
    if hasAnyWord l SUCCESS_WORDS then .successAt i
    else if hasAnyWord l WRONG_CODE_WORDS then .wrongAt i
    else if hasAnyWord l DECLINE_WORDS then .declinedAt i
    else runTdsPoll low fuel (i + 1)

/-- Body of the `try` of `complete_3ds`: find the SMS-code field on the main
page or a frame, submit, then poll for the outcome. -/
def tdsBody (env : TdsEnv) (uid : Nat) (session : Session) (sms_code : String)
    (reg1 : Registry) : PurchaseResult × Registry × List Ev :=
  let total := session.total_amount
  match env.fault with
  | some m =>
      ({ success := false, error := some m, total_amount := total }, reg1, [])
  | none =>
    let code_filled :=
      try_fill env.mainPage SMS_CODE_SELECTORS
        || env.frames.any (fun f => try_fill f SMS_CODE_SELECTORS)
    if code_filled = false then
      ({ success := false, payment_url := some env.pageUrl,
         error := some "Не нашёл поле для SMS-кода. Откройте ссылку.",
         total_amount := total }, reg1, [])
    else
      match runTdsPoll env.pollLow 60 0 with
      | .successAt _ =>
          ({ success := true, total_amount := total }, reg1, [Ev.tdsSubmit])
      | .wrongAt _ =>
          ({ success := false, needs_sms := true,
             error := some "Неверный код. Попробуйте ещё раз.",
             total_amount := total },
           regInsert uid session reg1, [Ev.tdsSubmit])
      | .declinedAt _ =>
          ({ success := false, error := some "Платёж отклонён банком.",
             total_amount := total }, reg1, [Ev.tdsSubmit])
      | .exhausted =>
          if hasAnyWord env.finalLow FINAL_SUCCESS_WORDS then
            ({ success := true, total_amount := total }, reg1, [Ev.tdsSubmit])
          else
            ({ success := false, payment_url := some env.finalUrl,
               error := some "Не удалось определить результат 3DS. Проверьте по ссылке.",
               total_amount := total }, reg1, [Ev.tdsSubmit])

/-- `complete_3ds(user_id, sms_code)`. -/
def complete_3ds (env : TdsEnv) (user_id : Nat) (sms_code : String)
    (reg : Registry) : PhaseOut × Registry × List Ev :=
  match reg user_id with
  | none =>
      (.res { success := false,
              error := some "Сессия 3DS истекла. Начните покупку заново." },
       reg, [])
  | some session =>
      finalizePhase user_id session
        (tdsBody env user_id session sms_code (regRemove user_id reg))

/- ── Concrete fixtures used by witnesses ── -/

def probeNone : String → Probe := fun _ => Probe.miss

def probeAll : String → Probe := fun _ => Probe.hit

def emptyReg : Registry := fun _ => none

def sessW : Session := mkSession 1 (some "1500 ₽")

def regW : Registry := regInsert 1 sessW emptyReg

def pageW : PrepPage :=
  { rangeOptions := some ["19:00 - 20:00"]
    hasPromoInput := true, hasPromoBtn := true
    hasNameInput := true, hasPhoneInput := true, hasEmailInput := true
    hasPaymentRadio := true, hasPlusBtn := true
    qtyInput := some "1"
    totalText := some "1500 ₽"
    cardPriceText := none }

def prepEnvW : PrepareEnv :=
  { installed := true, startError := none, tryFault := none, page := pageW }

def bankAll : BankPage := { main := probeAll, frames := [] }

def payEnvW : PayEnv :=
  { fault := none
    urlAfterSubmit := "https://bank.example/pay"
    siteContentLow := ""
    urlAfterWait := "https://bank.example/pay"
    bank := bankAll
    pollLow := fun _ => "оплата прошла успешно"
    finalUrl := "https://bank.example/pay" }

def payEnvTds : PayEnv :=
  { payEnvW with pollLow := fun _ => "введите код из смс" }

def tdsEnvW : TdsEnv :=
  { fault := none, mainPage := probeAll, frames := []
    pageUrl := "https://bank.example/3ds"
    pollLow := fun _ => "платеж успешно завершен"
    finalUrl := "https://bank.example/3ds"
    finalLow := "" }

def tdsEnvWrong : TdsEnv :=
  { tdsEnvW with pollLow := fun _ => "неверный код, повторите" }

example :
    (prepare_purchase prepEnvW 1 5 "15.02.2026" "19:00 - 20:00" none
      "A" "B" "C" emptyReg).1 =
    PhaseOut.res { success := true, total_amount := some "1500 ₽" } := by
  decide

example :
    (confirm_and_pay payEnvW 1 "4111111111111111" "12/25" "123" regW).1 =
    PhaseOut.res { success := true, total_amount := some "1500 ₽" } := by
  decide

example :
    (confirm_and_pay payEnvW 1 "4111111111111111" "12/25" "123" regW).2.1 1 =
    none := by
  decide

example :
    (confirm_and_pay payEnvTds 1 "4111111111111111" "12/25" "123" regW).2.1 1 =
    some sessW := by
  decide

example :
    (complete_3ds tdsEnvWrong 1 "1234" regW).1 =
    PhaseOut.res { success := false, needs_sms := true,
                   error := some "Неверный код. Попробуйте ещё раз.",
                   total_amount := some "1500 ₽" } := by
  decide

/- ── Helper lemmas ── -/

theorem payAtBank_success_clean (env : PayEnv) (uid : Nat) (s : Session)
    (bu n e c : String) (reg1 : Registry) (r : PurchaseResult)
    (reg2 : Registry) (evs : List Ev)
    (h : payAtBank env uid s bu n e c reg1 = (r, reg2, evs)) :
    r.success = true → r.error = none ∧ r.needs_sms = false := by
  unfold payAtBank at h
  simp only [] at h
  (repeat' split at h) <;>
    (simp only [Prod.mk.injEq] at h; obtain ⟨h1, h2, h3⟩ := h; subst h1; simp)

theorem confirmBody_success_clean (env : PayEnv) (uid : Nat) (s : Session)
    (n e c : String) (reg1 : Registry) (r : PurchaseResult)
    (reg2 : Registry) (evs : List Ev)
    (h : confirmBody env uid s n e c reg1 = (r, reg2, evs)) :
    r.success = true → r.error = none ∧ r.needs_sms = false := by
  unfold confirmBody at h
  simp only [] at h
  split at h
  · (simp only [Prod.mk.injEq] at h; obtain ⟨h1, h2, h3⟩ := h; subst h1; simp)
  · split at h
    · split at h
      · (simp only [Prod.mk.injEq] at h; obtain ⟨h1, h2, h3⟩ := h; subst h1; simp)
      · split at h
        · (simp only [Prod.mk.injEq] at h; obtain ⟨h1, h2, h3⟩ := h; subst h1; simp)
        · exact payAtBank_success_clean env uid s env.urlAfterWait n e c reg1
            r reg2 evs h
    · exact payAtBank_success_clean env uid s env.urlAfterSubmit n e c reg1
        r reg2 evs h

theorem tdsBody_success_clean (env : TdsEnv) (uid : Nat) (s : Session)
    (code : String) (reg1 : Registry) (r : PurchaseResult)
    (reg2 : Registry) (evs : List Ev)
    (h : tdsBody env uid s code reg1 = (r, reg2, evs)) :
    r.success = true → r.error = none ∧ r.needs_sms = false := by
  unfold tdsBody at h
  simp only [] at h
  (repeat' split at h) <;>
    (simp only [Prod.mk.injEq] at h; obtain ⟨h1, h2, h3⟩ := h; subst h1; simp)

theorem finalizePhase_fst (uid : Nat) (s : Session)
    (t : PurchaseResult × Registry × List Ev) :
    (finalizePhase uid s t).1 = PhaseOut.res t.1 := by
  obtain ⟨r, reg2, evs⟩ := t
  rfl

theorem finalizePhase_reg (uid : Nat) (s : Session)
    (t : PurchaseResult × Registry × List Ev) :
    (finalizePhase uid s t).2.1 = t.2.1 := by
  obtain ⟨r, reg2, evs⟩ := t
  rfl

theorem finalizePhase_evs (uid : Nat) (s : Session)
    (t : PurchaseResult × Registry × List Ev) :
    (finalizePhase uid s t).2.2 =
      if t.2.1 uid = none then t.2.2 ++ [Ev.closed s.close] else t.2.2 := by
  obtain ⟨r, reg2, evs⟩ := t
  rfl

theorem prepare_success_clean (env : PrepareEnv) (uid sid : Nat)
    (dt tr : String) (promo : Option String) (nm ph em : String)
    (reg : Registry) (r : PurchaseResult)
    (h : (prepare_purchase env uid sid dt tr promo nm ph em reg).1 =
      PhaseOut.res r) :
    r.success = true → r.error = none ∧ r.needs_sms = false := by
  unfold prepare_purchase at h
  simp only [] at h
  (repeat' split at h) <;>
    (simp only [PhaseOut.res.injEq] at h ; first | (subst h; simp) | exact absurd h (by simp))

theorem confirm_success_clean (env : PayEnv) (uid : Nat) (n e c : String)
    (reg : Registry) (r : PurchaseResult)
    (h : (confirm_and_pay env uid n e c reg).1 = PhaseOut.res r) :
    r.success = true → r.error = none ∧ r.needs_sms = false := by
  unfold confirm_and_pay at h
  split at h
  · simp only [PhaseOut.res.injEq] at h
    subst h
    simp
  · rename_i session heq
    rw [finalizePhase_fst] at h
    simp only [PhaseOut.res.injEq] at h
    have hb := confirmBody_success_clean env uid session n e c
      (regRemove uid reg)
      (confirmBody env uid session n e c (regRemove uid reg)).1
      (confirmBody env uid session n e c (regRemove uid reg)).2.1
      (confirmBody env uid session n e c (regRemove uid reg)).2.2 rfl
    rw [h] at hb
    exact hb

theorem tds_success_clean (env : TdsEnv) (uid : Nat) (code : String)
    (reg : Registry) (r : PurchaseResult)
    (h : (complete_3ds env uid code reg).1 = PhaseOut.res r) :
    r.success = true → r.error = none ∧ r.needs_sms = false := by
  unfold complete_3ds at h
  split at h
  · simp only [PhaseOut.res.injEq] at h
    subst h
    simp
  · rename_i session heq
    rw [finalizePhase_fst] at h
    simp only [PhaseOut.res.injEq] at h
    have hb := tdsBody_success_clean env uid session code
      (regRemove uid reg)
      (tdsBody env uid session code (regRemove uid reg)).1
      (tdsBody env uid session code (regRemove uid reg)).2.1
      (tdsBody env uid session code (regRemove uid reg)).2.2 rfl
    rw [h] at hb
    exact hb

/-- C1: for every phase call (prepare_purchase, confirm_and_pay,
complete_3ds) and every code path within it, a returned `PurchaseResult`
with `success = true` has `error = none` and `needs_sms = false`. -/
theorem C1_success_implies_no_error_no_sms :
    (∀ (env : PrepareEnv) (uid sid : Nat) (dt tr : String)
        (promo : Option String) (nm ph em : String) (reg : Registry)
        (r : PurchaseResult),
        (prepare_purchase env uid sid dt tr promo nm ph em reg).1 =
          PhaseOut.res r →
        r.success = true → r.error = none ∧ r.needs_sms = false) ∧
    (∀ (env : PayEnv) (uid : Nat) (n e c : String) (reg : Registry)
        (r : PurchaseResult),
        (confirm_and_pay env uid n e c reg).1 = PhaseOut.res r →
        r.success = true → r.error = none ∧ r.needs_sms = false) ∧
    (∀ (env : TdsEnv) (uid : Nat) (code : String) (reg : Registry)
        (r : PurchaseResult),
        (complete_3ds env uid code reg).1 = PhaseOut.res r →
        r.success = true → r.error = none ∧ r.needs_sms = false) :=
  ⟨fun env uid sid dt tr promo nm ph em reg r h =>
      prepare_success_clean env uid sid dt tr promo nm ph em reg r h,
   fun env uid n e c reg r h => confirm_success_clean env uid n e c reg r h,
   fun env uid code reg r h => tds_success_clean env uid code reg r h⟩

/-- C1 witness: a concrete successful confirm_and_pay call, checked to carry
no error and no needs-SMS flag. -/
theorem C1_success_implies_no_error_no_sms_witness :
    ({ success := true, total_amount := some "1500 ₽" } :
        PurchaseResult).error = none ∧
    ({ success := true, total_amount := some "1500 ₽" } :
        PurchaseResult).needs_sms = false :=
  C1_success_implies_no_error_no_sms.2.1 payEnvW 1 "4111111111111111"
    "12/25" "123" regW { success := true, total_amount := some "1500 ₽" }
    (by decide) (by decide)

theorem confirmBody_needs_sms (env : PayEnv) (uid : Nat) (s : Session)
    (n e c : String) (reg1 : Registry) (r : PurchaseResult)
    (reg2 : Registry) (evs : List Ev)
    (h : confirmBody env uid s n e c reg1 = (r, reg2, evs)) :
    r.needs_sms = true →
      reg2 = regInsert uid s reg1 ∧ evs = [Ev.paySubmit] := by
  unfold confirmBody payAtBank at h
  simp only [] at h
  (repeat' split at h) <;>
    (simp only [Prod.mk.injEq] at h
     obtain ⟨h1, h2, h3⟩ := h
     subst h1
     subst h2
     subst h3
     simp)

theorem confirmBody_closed_branches (env : PayEnv) (uid : Nat) (s : Session)
    (n e c : String) (reg1 : Registry) (r : PurchaseResult)
    (reg2 : Registry) (evs : List Ev)
    (h : confirmBody env uid s n e c reg1 = (r, reg2, evs)) :
    r.success = true ∨
        r.error = some "Сайт вернул ошибку при оформлении заказа." →
      reg2 = reg1 := by
  unfold confirmBody payAtBank at h
  simp only [] at h
  (repeat' split at h) <;>
    (simp only [Prod.mk.injEq] at h
     obtain ⟨h1, h2, h3⟩ := h
     subst h1
     subst h2
     subst h3
     simp)

theorem tdsBody_needs_sms (env : TdsEnv) (uid : Nat) (s : Session)
    (code : String) (reg1 : Registry) (r : PurchaseResult)
    (reg2 : Registry) (evs : List Ev)
    (h : tdsBody env uid s code reg1 = (r, reg2, evs)) :
    r.needs_sms = true →
      reg2 = regInsert uid s reg1 ∧ evs = [Ev.tdsSubmit] := by
  unfold tdsBody at h
  simp only [] at h
  (repeat' split at h) <;>
    (simp only [Prod.mk.injEq] at h
     obtain ⟨h1, h2, h3⟩ := h
     subst h1
     subst h2
     subst h3
     simp)

theorem tdsBody_closed_branches (env : TdsEnv) (uid : Nat) (s : Session)
    (code : String) (reg1 : Registry) (r : PurchaseResult)
    (reg2 : Registry) (evs : List Ev)
    (h : tdsBody env uid s code reg1 = (r, reg2, evs)) :
    r.success = true ∨ r.error = some "Платёж отклонён банком." →
      reg2 = reg1 := by
  unfold tdsBody at h
  simp only [] at h
  (repeat' split at h) <;>
    (simp only [Prod.mk.injEq] at h
     obtain ⟨h1, h2, h3⟩ := h
     subst h1
     subst h2
     subst h3
     simp)

/-- C2: a needs-code (`needs_sms = true`) return from confirm_and_pay or
complete_3ds re-inserts the same requester's session into the registry
(so a subsequent complete_3ds call's take finds it) and emits no close;
a success, decline, or site-rejection return removes the session from the
registry and closes it. -/
theorem C2_needs_sms_session_lifecycle :
    (∀ (env : PayEnv) (uid : Nat) (n e c : String) (reg : Registry)
        (session : Session) (r : PurchaseResult),
        reg uid = some session →
        (confirm_and_pay env uid n e c reg).1 = PhaseOut.res r →
        (r.needs_sms = true →
          (confirm_and_pay env uid n e c reg).2.1 uid = some session ∧
          ∀ s', Ev.closed s' ∉ (confirm_and_pay env uid n e c reg).2.2) ∧
        (r.success = true ∨
            r.error = some "Сайт вернул ошибку при оформлении заказа." →
          (confirm_and_pay env uid n e c reg).2.1 uid = none ∧
          Ev.closed session.close ∈ (confirm_and_pay env uid n e c reg).2.2)) ∧
    (∀ (env : TdsEnv) (uid : Nat) (code : String) (reg : Registry)
        (session : Session) (r : PurchaseResult),
        reg uid = some session →
        (complete_3ds env uid code reg).1 = PhaseOut.res r →
        (r.needs_sms = true →
          (complete_3ds env uid code reg).2.1 uid = some session ∧
          ∀ s', Ev.closed s' ∉ (complete_3ds env uid code reg).2.2) ∧
        (r.success = true ∨ r.error = some "Платёж отклонён банком." →
          (complete_3ds env uid code reg).2.1 uid = none ∧
          Ev.closed session.close ∈ (complete_3ds env uid code reg).2.2)) := by
  constructor
  · intro env uid n e c reg session r hs hres
    unfold confirm_and_pay at hres ⊢
    rw [hs] at hres ⊢
    rw [finalizePhase_fst] at hres
    simp only [PhaseOut.res.injEq] at hres
    rw [finalizePhase_reg, finalizePhase_evs]
    constructor
    · intro hn
      obtain ⟨h2, h3⟩ := confirmBody_needs_sms env uid session n e c
        (regRemove uid reg)
        (confirmBody env uid session n e c (regRemove uid reg)).1
        (confirmBody env uid session n e c (regRemove uid reg)).2.1
        (confirmBody env uid session n e c (regRemove uid reg)).2.2 rfl
        (by rw [hres]; exact hn)
      rw [h2, h3]
      simp [regInsert]
    · intro hc
      have h2 := confirmBody_closed_branches env uid session n e c
        (regRemove uid reg)
        (confirmBody env uid session n e c (regRemove uid reg)).1
        (confirmBody env uid session n e c (regRemove uid reg)).2.1
        (confirmBody env uid session n e c (regRemove uid reg)).2.2 rfl
        (by rw [hres]; exact hc)
      rw [h2]
      simp [regRemove]
  · intro env uid code reg session r hs hres
    unfold complete_3ds at hres ⊢
    rw [hs] at hres ⊢
    rw [finalizePhase_fst] at hres
    simp only [PhaseOut.res.injEq] at hres
    rw [finalizePhase_reg, finalizePhase_evs]
    constructor
    · intro hn
      obtain ⟨h2, h3⟩ := tdsBody_needs_sms env uid session code
        (regRemove uid reg)
        (tdsBody env uid session code (regRemove uid reg)).1
        (tdsBody env uid session code (regRemove uid reg)).2.1
        (tdsBody env uid session code (regRemove uid reg)).2.2 rfl
        (by rw [hres]; exact hn)
      rw [h2, h3]
      simp [regInsert]
    · intro hc
      have h2 := tdsBody_closed_branches env uid session code
        (regRemove uid reg)
        (tdsBody env uid session code (regRemove uid reg)).1
        (tdsBody env uid session code (regRemove uid reg)).2.1
        (tdsBody env uid session code (regRemove uid reg)).2.2 rfl
        (by rw [hres]; exact hc)
      rw [h2]
      simp [regRemove]

/-- C2 witness: a concrete 3-D-Secure detection re-inserts the session, and
a concrete success removes it and closes the browser. -/
theorem C2_needs_sms_session_lifecycle_witness :
    ((confirm_and_pay payEnvTds 1 "4111111111111111" "12/25" "123"
        regW).2.1 1 = some sessW ∧
      ∀ s', Ev.closed s' ∉
        (confirm_and_pay payEnvTds 1 "4111111111111111" "12/25" "123"
          regW).2.2) ∧
    ((confirm_and_pay payEnvW 1 "4111111111111111" "12/25" "123"
        regW).2.1 1 = none ∧
      Ev.closed sessW.close ∈
        (confirm_and_pay payEnvW 1 "4111111111111111" "12/25" "123"
          regW).2.2) :=
  ⟨(C2_needs_sms_session_lifecycle.1 payEnvTds 1 "4111111111111111" "12/25"
      "123" regW sessW
      { success := false, needs_sms := true,
        error := some "Банк запросил код из SMS для подтверждения.",
        total_amount := some "1500 ₽" }
      (by decide) (by decide)).1 (by decide),
   (C2_needs_sms_session_lifecycle.1 payEnvW 1 "4111111111111111" "12/25"
      "123" regW sessW
      { success := true, total_amount := some "1500 ₽" }
      (by decide) (by decide)).2 (Or.inl (by decide))⟩

theorem close_browser_dead (s : Session) : s.close.browser.alive = false := by
  unfold Session.close Session.closeE Browser.closeAttempt
  simp only []
  split <;> simp_all

/-- C3: when a session for the requester already exists in the registry,
prepare_purchase closes it first (the close event opens the event list and
the browser is no longer alive), leaves every other requester's entry
untouched, and either stores no session (failure) or stores exactly one new
session for the requester, with the store strictly after the close. -/
theorem C3_prepare_replaces_session :
    ∀ (env : PrepareEnv) (uid sid : Nat) (dt tr : String)
      (promo : Option String) (nm ph em : String) (reg : Registry)
      (s : Session),
      reg uid = some s →
      (prepare_purchase env uid sid dt tr promo nm ph em reg).2.2.head? =
          some (Ev.closed s.close) ∧
      s.close.browser.alive = false ∧
      (∀ k, k ≠ uid →
        (prepare_purchase env uid sid dt tr promo nm ph em reg).2.1 k =
          reg k) ∧
      ((prepare_purchase env uid sid dt tr promo nm ph em reg).2.2 =
          [Ev.closed s.close] ∧
        (prepare_purchase env uid sid dt tr promo nm ph em reg).2.1 uid =
          none ∨
       (prepare_purchase env uid sid dt tr promo nm ph em reg).2.2 =
          [Ev.closed s.close, Ev.stored uid] ∧
        (∃ ns, (prepare_purchase env uid sid dt tr promo nm ph em
          reg).2.1 uid = some ns)) := by
  intro env uid sid dt tr promo nm ph em reg s hs
  unfold prepare_purchase cancel_purchase
  rw [hs]
  simp only []
  refine ⟨?_, close_browser_dead s, ?_, ?_⟩ <;>
    (repeat' split) <;>
    simp_all [regRemove, regInsert]

/-- C3 witness: a concrete re-prepare over an existing session closes the
old session first and leaves other requesters' entries unchanged. -/
theorem C3_prepare_replaces_session_witness :
    (prepare_purchase prepEnvW 1 5 "15.02.2026" "19:00 - 20:00" none
        "A" "B" "C" regW).2.2.head? = some (Ev.closed sessW.close) ∧
    sessW.close.browser.alive = false ∧
    (prepare_purchase prepEnvW 1 5 "15.02.2026" "19:00 - 20:00" none
        "A" "B" "C" regW).2.1 2 = regW 2 := by
  have h := C3_prepare_replaces_session prepEnvW 1 5 "15.02.2026"
    "19:00 - 20:00" none "A" "B" "C" regW sessW (by decide)
  exact ⟨h.1, h.2.1, h.2.2.1 2 (by decide)⟩

/-- C4: with no session in the registry for the requester, confirm_and_pay
returns exactly the "session expired, restart" failure and complete_3ds
exactly the "challenge session expired" failure — two distinct
classifications — and neither call changes the registry or has any other
effect. -/
theorem C4_no_session_expired_classification :
    ∀ (penv : PayEnv) (tenv : TdsEnv) (uid : Nat) (n e c code : String)
      (reg : Registry),
      reg uid = none →
      confirm_and_pay penv uid n e c reg =
        (PhaseOut.res { success := false,
                        error := some "Сессия истекла. Выберите сеанс заново." },
          reg, []) ∧
      complete_3ds tenv uid code reg =
        (PhaseOut.res { success := false,
                        error := some "Сессия 3DS истекла. Начните покупку заново." },
          reg, []) ∧
      ("Сессия истекла. Выберите сеанс заново." : String) ≠
        "Сессия 3DS истекла. Начните покупку заново." := by
  intro penv tenv uid n e c code reg h
  unfold confirm_and_pay complete_3ds
  rw [h]
  exact ⟨rfl, rfl, by decide⟩

/-- C4 witness: both phases at a concrete empty registry. -/
theorem C4_no_session_expired_classification_witness :
    confirm_and_pay payEnvW 1 "4111111111111111" "12/25" "123" emptyReg =
      (PhaseOut.res { success := false,
                      error := some "Сессия истекла. Выберите сеанс заново." },
        emptyReg, []) ∧
    complete_3ds tdsEnvW 1 "1234" emptyReg =
      (PhaseOut.res { success := false,
                      error := some "Сессия 3DS истекла. Начните покупку заново." },
        emptyReg, []) ∧
    ("Сессия истекла. Выберите сеанс заново." : String) ≠
      "Сессия 3DS истекла. Начните покупку заново." :=
  C4_no_session_expired_classification payEnvW tdsEnvW 1 "4111111111111111"
    "12/25" "123" "1234" emptyReg rfl

theorem Session.close_close (s : Session) : s.close.close = s.close := by
  obtain ⟨uid, ⟨alive, td⟩, pw, task, total⟩ := s
  unfold Session.close Session.closeE Browser.closeAttempt pwStopAttempt
  cases alive <;> cases pw <;> simp

theorem close_teardowns (s : Session) :
    s.close.browser.teardowns =
      s.browser.teardowns + (if s.browser.alive then 1 else 0) := by
  obtain ⟨uid, ⟨alive, td⟩, pw, task, total⟩ := s
  unfold Session.close Session.closeE Browser.closeAttempt
  cases alive <;> simp

theorem close_iterate (s : Session) (n : Nat) :
    Session.close^[n + 1] s = Session.close s := by
  induction n with
  | zero => rfl
  | succ m ih =>
      rw [Function.iterate_succ_apply', ih, Session.close_close]

/-- C5: `SESSION_TTL` is the fixed 5-minute (300 s) window; when the expiry
task fires on an unclaimed session, the registry entry for its owner is
removed and the session is closed (browser no longer alive); `close` never
lets an exception escape; and over any number of repeated `close` calls —
expiry racing cancellation or a phase's cleanup — the underlying browser is
torn down at most once. -/
theorem C5_expiry_and_idempotent_close :
    SESSION_TTL = 300 ∧
    (∀ (s : Session) (reg : Registry),
      (auto_cleanup s reg).1 s.user_id = none ∧
      (auto_cleanup s reg).2 = s.close ∧
      s.close.browser.alive = false) ∧
    (∀ s : Session, (Session.closeE s).2 = none) ∧
    (∀ (s : Session) (n : Nat), s.browser.teardowns = 0 →
      (Session.close^[n] s).browser.teardowns ≤ 1) := by
  refine ⟨rfl, ?_, ?_, ?_⟩
  · intro s reg
    exact ⟨by simp [auto_cleanup, regRemove], rfl, close_browser_dead s⟩
  · intro s
    rfl
  · intro s n h
    match n with
    | 0 => simp [h]
    | m + 1 =>
        rw [close_iterate, close_teardowns, h]
        split <;> simp

/-- C5 witness: a fresh session closed three times in a row (cancellation
plus expiry plus phase cleanup) still tears the browser down only once. -/
theorem C5_expiry_and_idempotent_close_witness :
    (auto_cleanup sessW regW).1 1 = none ∧
    (Session.close^[3] sessW).browser.teardowns ≤ 1 := by
  have h := C5_expiry_and_idempotent_close
  exact ⟨(h.2.1 sessW regW).1, h.2.2.2 sessW 3 (by decide)⟩

/-- Environment whose Playwright driver start call raises. -/
def prepEnvStartFail : PrepareEnv :=
  { installed := true
    startError := some "BrowserType.launch: executable not found"
    tryFault := none
    page := pageW }

/-- Environment that faults after the browser launch, inside the `try`. -/
def prepEnvTryFail : PrepareEnv :=
  { installed := true
    startError := none
    tryFault := some "Timeout 30000ms exceeded"
    page := pageW }

def payEnvFault : PayEnv := { payEnvW with fault := some "submit failed" }

def tdsEnvFault : TdsEnv := { tdsEnvW with fault := some "frame detached" }

/-- C6 counterexample: a fault of the Playwright driver start call — a
browser startup failure — propagates out of prepare_purchase unhandled,
because that call sits before the phase's `try` block. -/
theorem C6_unhandled_start_fault_counterexample :
    (prepare_purchase prepEnvStartFail 1 5 "15.02.2026" "19:00 - 20:00" none
        "A" "B" "C" emptyReg).1 =
      PhaseOut.exn "BrowserType.launch: executable not found" := by
  decide

/-- C6 amended: faults raised inside the phase try-blocks are converted to
`PurchaseResult` failures carrying the fault's description, and no exception
ever escapes confirm_and_pay or complete_3ds; prepare_purchase returns a
result (never an exception) whenever the driver start call does not raise —
but a fault of that start call itself escapes unhandled (see the
counterexample). -/
theorem C6_faults_converted_amended :
    (∀ (env : PrepareEnv) (uid sid : Nat) (dt tr : String)
        (promo : Option String) (nm ph em : String) (reg : Registry),
        env.startError = none →
        ∃ r, (prepare_purchase env uid sid dt tr promo nm ph em reg).1 =
          PhaseOut.res r) ∧
    (∀ (env : PrepareEnv) (uid sid : Nat) (dt tr : String)
        (promo : Option String) (nm ph em : String) (reg : Registry)
        (m : String),
        env.installed = true → env.startError = none →
        env.tryFault = some m →
        (prepare_purchase env uid sid dt tr promo nm ph em reg).1 =
          PhaseOut.res { success := false, error := some m }) ∧
    (∀ (env : PayEnv) (uid : Nat) (n e c : String) (reg : Registry),
        ∃ r, (confirm_and_pay env uid n e c reg).1 = PhaseOut.res r) ∧
    (∀ (env : PayEnv) (uid : Nat) (n e c : String) (reg : Registry)
        (s : Session) (m : String),
        reg uid = some s → env.fault = some m →
        (confirm_and_pay env uid n e c reg).1 =
          PhaseOut.res { success := false, error := some m,
                         total_amount := s.total_amount }) ∧
    (∀ (env : TdsEnv) (uid : Nat) (code : String) (reg : Registry),
        ∃ r, (complete_3ds env uid code reg).1 = PhaseOut.res r) ∧
    (∀ (env : TdsEnv) (uid : Nat) (code : String) (reg : Registry)
        (s : Session) (m : String),
        reg uid = some s → env.fault = some m →
        (complete_3ds env uid code reg).1 =
          PhaseOut.res { success := false, error := some m,
                         total_amount := s.total_amount }) := by
  refine ⟨?_, ?_, ?_, ?_, ?_, ?_⟩
  · intro env uid sid dt tr promo nm ph em reg hse
    unfold prepare_purchase cancel_purchase
    simp only []
    (repeat' split) <;> first | exact ⟨_, rfl⟩ | simp_all
  · intro env uid sid dt tr promo nm ph em reg m hinst hse htf
    unfold prepare_purchase cancel_purchase
    simp [hinst, hse, htf]
  · intro env uid n e c reg
    unfold confirm_and_pay
    split
    · exact ⟨_, rfl⟩
    · rw [finalizePhase_fst]
      exact ⟨_, rfl⟩
  · intro env uid n e c reg s m hs hf
    unfold confirm_and_pay
    rw [hs, finalizePhase_fst]
    unfold confirmBody
    rw [hf]
  · intro env uid code reg
    unfold complete_3ds
    split
    · exact ⟨_, rfl⟩
    · rw [finalizePhase_fst]
      exact ⟨_, rfl⟩
  · intro env uid code reg s m hs hf
    unfold complete_3ds
    rw [hs, finalizePhase_fst]
    unfold tdsBody
    rw [hf]

/-- C6 amended witness: concrete faults inside each phase's try-block come
back as failure results with the fault text. -/
theorem C6_faults_converted_amended_witness :
    (prepare_purchase prepEnvTryFail 1 5 "15.02.2026" "19:00 - 20:00" none
        "A" "B" "C" emptyReg).1 =
      PhaseOut.res { success := false,
                     error := some "Timeout 30000ms exceeded" } ∧
    (confirm_and_pay payEnvFault 1 "4111111111111111" "12/25" "123"
        regW).1 =
      PhaseOut.res { success := false, error := some "submit failed",
                     total_amount := some "1500 ₽" } ∧
    (complete_3ds tdsEnvFault 1 "1234" regW).1 =
      PhaseOut.res { success := false, error := some "frame detached",
                     total_amount := some "1500 ₽" } :=
  ⟨C6_faults_converted_amended.2.1 prepEnvTryFail 1 5 "15.02.2026"
      "19:00 - 20:00" none "A" "B" "C" emptyReg "Timeout 30000ms exceeded"
      rfl rfl rfl,
   C6_faults_converted_amended.2.2.2.1 payEnvFault 1 "4111111111111111"
      "12/25" "123" regW sessW "submit failed" (by decide) rfl,
   C6_faults_converted_amended.2.2.2.2.2 tdsEnvFault 1 "1234" regW sessW
      "frame detached" (by decide) rfl⟩

theorem try_fill_sel_eq_none (t : String → Probe) (sels : List String) :
    try_fill_sel t sels = none ↔ ∀ sel ∈ sels, t sel ≠ Probe.hit := by
  induction sels with
  | nil => simp [try_fill_sel]
  | cons a as ih =>
      unfold try_fill_sel
      split <;> simp_all

theorem fill_card_no_card (p : BankPage) (n e c : String)
    (h : ∀ sel ∈ CARD_SELECTORS, pickTarget p sel ≠ Probe.hit) :
    (fill_card p n e c).ok = false := by
  unfold fill_card
  simp only []
  rw [(try_fill_sel_eq_none (pickTarget p) CARD_SELECTORS).mpr h]

/-- Bank page whose combined-expiry candidates all miss but whose other
fields (incl. separate month/year) match. -/
def probeSplit : String → Probe := fun sel =>
  if sel ∈ EXPIRY_SELECTORS then Probe.miss else Probe.hit

/-- Bank page on which no card-number candidate matches. -/
def probeNoCard : String → Probe := fun sel =>
  if sel ∈ CARD_SELECTORS then Probe.miss else Probe.hit

def bankSplit : BankPage := { main := probeSplit, frames := [] }

def bankNoCard : BankPage := { main := probeNoCard, frames := [] }

def payEnvNoCard : PayEnv := { payEnvW with bank := bankNoCard }

/-- C7: in confirm_and_pay's card fill, the expiry is first tried as one
combined field typed with slashes stripped; only when no combined candidate
matches are separate month/year fields tried; and when no card-number
candidate matches at all, the fill counts as failed and confirm_and_pay
returns a failure carrying the bank page URL, raising nothing. -/
theorem C7_expiry_fallback_and_card_failure :
    (∀ (p : BankPage) (n e c : String),
        (try_fill_sel (pickTarget p) CARD_SELECTORS).isSome = true →
        (try_fill_sel (pickTarget p) EXPIRY_SELECTORS).isSome = true →
        (fill_card p n e c).expiryValue = some (stripSlashes e) ∧
        (fill_card p n e c).usedSplit = false ∧
        (fill_card p n e c).expiry_ok = true) ∧
    (∀ (p : BankPage) (n e c : String),
        (try_fill_sel (pickTarget p) CARD_SELECTORS).isSome = true →
        try_fill_sel (pickTarget p) EXPIRY_SELECTORS = none →
        (fill_card p n e c).usedSplit = true ∧
        ((splitSlash e).length = 2 →
          monthYearPairs.any (fun pr =>
            pickTarget p pr.1 = Probe.hit && pickTarget p pr.2 = Probe.hit) =
              true →
          (fill_card p n e c).expiry_ok = true)) ∧
    (∀ (p : BankPage) (n e c : String),
        (∀ sel ∈ CARD_SELECTORS, pickTarget p sel ≠ Probe.hit) →
        (fill_card p n e c).ok = false) ∧
    (∀ (env : PayEnv) (uid : Nat) (n e c : String) (reg : Registry)
        (s : Session),
        reg uid = some s → env.fault = none →
        strContains env.urlAfterSubmit "sportvsegda.ru" = false →
        (∀ sel ∈ CARD_SELECTORS, pickTarget env.bank sel ≠ Probe.hit) →
        (confirm_and_pay env uid n e c reg).1 =
          PhaseOut.res
            { success := false
              payment_url := some env.urlAfterSubmit
              error := some "Не удалось заполнить карту автоматически. Откройте ссылку."
              total_amount := s.total_amount }) := by
  refine ⟨?_, ?_, fill_card_no_card, ?_⟩
  · intro p n e c hc hcomb
    obtain ⟨x, hx⟩ := Option.isSome_iff_exists.mp hc
    obtain ⟨y, hy⟩ := Option.isSome_iff_exists.mp hcomb
    unfold fill_card
    simp only []
    rw [hx, hy]
    simp
  · intro p n e c hc hcomb
    obtain ⟨x, hx⟩ := Option.isSome_iff_exists.mp hc
    unfold fill_card
    simp only []
    rw [hx, hcomb]
    refine ⟨rfl, ?_⟩
    intro hlen hany
    simp [splitExpiry, hlen, hany]
  · intro env uid n e c reg s hs hf hurl hcard
    unfold confirm_and_pay
    rw [hs, finalizePhase_fst]
    unfold confirmBody
    rw [hf]
    simp only [hurl, Bool.false_eq_true, if_false]
    unfold payAtBank
    simp only []
    rw [fill_card_no_card env.bank n e c hcard]
    simp

/-- C7 witness: concrete pages exercising the combined-expiry fill, the
month/year fallback, and the missing-card-number fallback link. -/
theorem C7_expiry_fallback_and_card_failure_witness :
    ((fill_card bankAll "4111111111111111" "12/25" "123").expiryValue =
        some "1225" ∧
      (fill_card bankAll "4111111111111111" "12/25" "123").usedSplit =
        false) ∧
    ((fill_card bankSplit "4111111111111111" "12/25" "123").usedSplit =
        true ∧
      (fill_card bankSplit "4111111111111111" "12/25" "123").expiry_ok =
        true) ∧
    (fill_card bankNoCard "4111111111111111" "12/25" "123").ok = false ∧
    (confirm_and_pay payEnvNoCard 1 "4111111111111111" "12/25" "123"
        regW).1 =
      PhaseOut.res
        { success := false
          payment_url := some "https://bank.example/pay"
          error := some "Не удалось заполнить карту автоматически. Откройте ссылку."
          total_amount := some "1500 ₽" } := by
  have h := C7_expiry_fallback_and_card_failure
  have h1 := h.1 bankAll "4111111111111111" "12/25" "123" (by decide)
    (by decide)
  have h2 := h.2.1 bankSplit "4111111111111111" "12/25" "123" (by decide)
    (by decide)
  exact ⟨⟨h1.1, h1.2.1⟩,
    ⟨h2.1, h2.2 (by decide) (by decide)⟩,
    h.2.2.1 bankNoCard "4111111111111111" "12/25" "123" (by decide),
    h.2.2.2 payEnvNoCard 1 "4111111111111111" "12/25" "123" regW sessW
      (by decide) rfl (by decide) (by decide)⟩

theorem readTotal_success (p : PrepPage) (lg : List String) :
    (readTotal p lg).success = true := rfl

theorem mem_readTotal_log (p : PrepPage) (lg : List String) (a : String)
    (h : a ∈ lg) : a ∈ (readTotal p lg).jsLog := by
  unfold readTotal
  simp only []
  split
  · split <;> simp [h]
  · simp [h]

theorem jsFillForm_no_qty (p : PrepPage) (tr promo nm ph em : String)
    (h1 : p.hasPlusBtn = false) (h2 : p.qtyInput = none) :
    (jsFillForm p tr promo nm ph em).success = false ∧
    (jsFillForm p tr promo nm ph em).error =
      some "No plus btn and no input" := by
  unfold jsFillForm
  simp only [h1, h2]
  exact ⟨rfl, rfl⟩

theorem jsFillForm_qty_success (p : PrepPage) (tr promo nm ph em : String)
    (h : p.hasPlusBtn = true ∨ p.qtyInput.isSome = true) :
    (jsFillForm p tr promo nm ph em).success = true := by
  unfold jsFillForm
  simp only []
  rcases h with h | h
  · simp [h, readTotal_success]
  · obtain ⟨v, hv⟩ := Option.isSome_iff_exists.mp h
    cases hb : p.hasPlusBtn
    · simp [hv, readTotal_success]
    · simp [readTotal_success]

/-- Order page with no quantity "+" control but with a quantity input. -/
def pageDirect : PrepPage := { pageW with hasPlusBtn := false }

/-- Order page with neither a "+" control nor a quantity input. -/
def pageNoQty : PrepPage :=
  { pageW with hasPlusBtn := false, qtyInput := none }

def prepEnvNoQty : PrepareEnv := { prepEnvW with page := pageNoQty }

/-- C8: a missing quantity "+" control is tolerated by writing 1 into the
quantity input directly; with neither control present the fill script
reports the hard failure, prepare_purchase returns a failure result and no
session is stored; and no other missing form field (slot dropdown, promo
input, contact fields, payment radio) can make the fill script fail. -/
theorem C8_quantity_fallback_and_field_tolerance :
    (∀ (p : PrepPage) (tr promo nm ph em : String),
        p.hasPlusBtn = true ∨ p.qtyInput.isSome = true →
        (jsFillForm p tr promo nm ph em).success = true) ∧
    (∀ (p : PrepPage) (tr promo nm ph em : String),
        p.hasPlusBtn = false → p.qtyInput.isSome = true →
        "Direct input=1" ∈ (jsFillForm p tr promo nm ph em).jsLog) ∧
    (∀ (p : PrepPage) (tr promo nm ph em : String),
        p.hasPlusBtn = false → p.qtyInput = none →
        (jsFillForm p tr promo nm ph em).success = false ∧
        (jsFillForm p tr promo nm ph em).error =
          some "No plus btn and no input") ∧
    (∀ (env : PrepareEnv) (uid sid : Nat) (dt tr : String)
        (promo : Option String) (nm ph em : String) (reg : Registry),
        env.installed = true → env.startError = none →
        env.tryFault = none →
        env.page.hasPlusBtn = false → env.page.qtyInput = none →
        (prepare_purchase env uid sid dt tr promo nm ph em reg).1 =
          PhaseOut.res { success := false,
                         error := some "No plus btn and no input" } ∧
        (prepare_purchase env uid sid dt tr promo nm ph em reg).2.1 uid =
          none) := by
  refine ⟨jsFillForm_qty_success, ?_, jsFillForm_no_qty, ?_⟩
  · intro p tr promo nm ph em h1 h2
    obtain ⟨v, hv⟩ := Option.isSome_iff_exists.mp h2
    unfold jsFillForm
    simp only [h1, hv]
    exact mem_readTotal_log p _ "Direct input=1" (by simp)
  · intro env uid sid dt tr promo nm ph em reg hinst hse htf hp hq
    have hjs := jsFillForm_no_qty env.page tr (promo.getD "") nm ph em hp hq
    unfold prepare_purchase cancel_purchase
    simp only [hinst, hse, htf]
    cases hru : reg uid <;>
      simp [hjs.1, hjs.2, regRemove, hru]

/-- C8 witness: the direct-input fallback succeeds on a page without the
"+" control, and a page with neither mechanism makes prepare_purchase fail
with no session stored. -/
theorem C8_quantity_fallback_and_field_tolerance_witness :
    (jsFillForm pageDirect "19:00 - 20:00" "" "A" "B" "C").success = true ∧
    "Direct input=1" ∈
      (jsFillForm pageDirect "19:00 - 20:00" "" "A" "B" "C").jsLog ∧
    (prepare_purchase prepEnvNoQty 1 5 "15.02.2026" "19:00 - 20:00" none
        "A" "B" "C" emptyReg).1 =
      PhaseOut.res { success := false,
                     error := some "No plus btn and no input" } ∧
    (prepare_purchase prepEnvNoQty 1 5 "15.02.2026" "19:00 - 20:00" none
        "A" "B" "C" emptyReg).2.1 1 = none := by
  have h := C8_quantity_fallback_and_field_tolerance
  have h4 := h.2.2.2 prepEnvNoQty 1 5 "15.02.2026" "19:00 - 20:00" none
    "A" "B" "C" emptyReg rfl rfl rfl (by decide) (by decide)
  exact ⟨h.1 pageDirect "19:00 - 20:00" "" "A" "B" "C" (Or.inr (by decide)),
    h.2.1 pageDirect "19:00 - 20:00" "" "A" "B" "C" (by decide) (by decide),
    h4.1, h4.2⟩

theorem readTotal_sentinel (p : PrepPage) (lg : List String) (t u : String)
    (ht : p.totalText = some t)
    (hz : trimChars t = "0 ₽" ∨ trimChars t = "0")
    (hu : p.cardPriceText = some u) :
    (readTotal p lg).total = some (trimChars u) := by
  unfold readTotal
  simp only [ht, hu]
  rcases hz with h | h <;> simp [h]

theorem jsFillForm_sentinel_total (p : PrepPage) (tr promo nm ph em : String)
    (t u : String) (hq : p.hasPlusBtn = true ∨ p.qtyInput.isSome = true)
    (ht : p.totalText = some t)
    (hz : trimChars t = "0 ₽" ∨ trimChars t = "0")
    (hu : p.cardPriceText = some u) :
    (jsFillForm p tr promo nm ph em).total = some (trimChars u) := by
  unfold jsFillForm
  simp only []
  rcases hq with h | h
  · simp only [h, if_true]
    exact readTotal_sentinel p _ t u ht hz hu
  · obtain ⟨v, hv⟩ := Option.isSome_iff_exists.mp h
    cases hb : p.hasPlusBtn
    · simp only [Bool.false_eq_true, if_false, hv]
      exact readTotal_sentinel p _ t u ht hz hu
    · simp only [if_true]
      exact readTotal_sentinel p _ t u ht hz hu

/-- Order page whose displayed total reads the zero sentinel while the
ticket card shows a per-ticket price. -/
def pageZeroTotal : PrepPage :=
  { pageW with totalText := some "0 ₽", cardPriceText := some " 750 ₽ " }

def prepEnvZeroTotal : PrepareEnv := { prepEnvW with page := pageZeroTotal }

/-- C9: when the displayed total price string reads as the zero sentinel
("0 ₽" or "0" after trimming), the total returned by the fill script — and
by a successful prepare_purchase — is the trimmed per-ticket unit price
from the ticket card instead. -/
theorem C9_zero_total_falls_back_to_unit_price :
    (∀ (p : PrepPage) (tr promo nm ph em : String) (t u : String),
        p.hasPlusBtn = true ∨ p.qtyInput.isSome = true →
        p.totalText = some t →
        trimChars t = "0 ₽" ∨ trimChars t = "0" →
        p.cardPriceText = some u →
        (jsFillForm p tr promo nm ph em).total = some (trimChars u)) ∧
    (∀ (env : PrepareEnv) (uid sid : Nat) (dt tr : String)
        (promo : Option String) (nm ph em : String) (reg : Registry)
        (t u : String),
        env.installed = true → env.startError = none →
        env.tryFault = none →
        env.page.hasPlusBtn = true ∨ env.page.qtyInput.isSome = true →
        env.page.totalText = some t →
        trimChars t = "0 ₽" ∨ trimChars t = "0" →
        env.page.cardPriceText = some u →
        (prepare_purchase env uid sid dt tr promo nm ph em reg).1 =
          PhaseOut.res { success := true,
                         total_amount := some (trimChars u) }) := by
  refine ⟨jsFillForm_sentinel_total, ?_⟩
  intro env uid sid dt tr promo nm ph em reg t u hinst hse htf hq ht hz hu
  have hsucc := jsFillForm_qty_success env.page tr (promo.getD "") nm ph
    em hq
  have htot := jsFillForm_sentinel_total env.page tr (promo.getD "") nm ph
    em t u hq ht hz hu
  unfold prepare_purchase cancel_purchase
  simp only [hinst, hse, htf]
  simp [hsucc, htot]

/-- C9 witness: a page displaying total "0 ₽" with unit price " 750 ₽ " on
the card yields a successful prepare with total "750 ₽". -/
theorem C9_zero_total_falls_back_to_unit_price_witness :
    (jsFillForm pageZeroTotal "19:00 - 20:00" "" "A" "B" "C").total =
      some "750 ₽" ∧
    (prepare_purchase prepEnvZeroTotal 1 5 "15.02.2026" "19:00 - 20:00"
        none "A" "B" "C" emptyReg).1 =
      PhaseOut.res { success := true, total_amount := some "750 ₽" } := by
  have h := C9_zero_total_falls_back_to_unit_price
  exact ⟨h.1 pageZeroTotal "19:00 - 20:00" "" "A" "B" "C" "0 ₽" " 750 ₽ "
      (Or.inl (by decide)) (by decide) (Or.inl (by decide)) (by decide),
    h.2 prepEnvZeroTotal 1 5 "15.02.2026" "19:00 - 20:00" none "A" "B" "C"
      emptyReg "0 ₽" " 750 ₽ " rfl rfl rfl (Or.inl (by decide))
      (by decide) (Or.inl (by decide)) (by decide)⟩

theorem payAtBank_submit (env : PayEnv) (uid : Nat) (s : Session)
    (bu n e c : String) (reg1 : Registry)
    (hok : (fill_card env.bank n e c).ok = true) :
    Ev.paySubmit ∈ (payAtBank env uid s bu n e c reg1).2.2 := by
  unfold payAtBank
  simp only [hok, Bool.true_eq_false, if_false]
  split <;> simp

/-- Bank page on which no expiry field — combined or separate month/year —
matches, while card number and CVV do. -/
def probeNoExpiry : String → Probe := fun sel =>
  if sel ∈ EXPIRY_SELECTORS ∨ sel = "input[name=\"month\"]" ∨
      sel = "input[name*=\"month\"]" ∨ sel = "input[name=\"year\"]" ∨
      sel = "input[name*=\"year\"]" then Probe.miss
  else Probe.hit

def bankNoExpiry : BankPage := { main := probeNoExpiry, frames := [] }

def payEnvNoExpiry : PayEnv := { payEnvW with bank := bankNoExpiry }

/-- C10: `_fill_card` returns true exactly when the card-number and CVV
fields were filled — the expiry outcome does not enter its return value —
so with the expiry unfilled, confirm_and_pay still proceeds to submit the
payment on the bank page. -/
theorem C10_fill_ok_ignores_expiry :
    (∀ (p : BankPage) (n e c : String),
        (fill_card p n e c).ok = true →
        (fill_card p n e c).card_ok = true ∧
        (fill_card p n e c).cvv_ok = true) ∧
    (∀ (p : BankPage) (n e c : String),
        (fill_card p n e c).ok =
          ((try_fill_sel (pickTarget p) CARD_SELECTORS).isSome &&
            (try_fill_sel (pickTarget p) CVV_SELECTORS).isSome)) ∧
    (∀ (env : PayEnv) (uid : Nat) (n e c : String) (reg : Registry)
        (s : Session),
        reg uid = some s → env.fault = none →
        strContains env.urlAfterSubmit "sportvsegda.ru" = false →
        (fill_card env.bank n e c).ok = true →
        (fill_card env.bank n e c).expiry_ok = false →
        Ev.paySubmit ∈ (confirm_and_pay env uid n e c reg).2.2) := by
  refine ⟨?_, ?_, ?_⟩
  · intro p n e c
    unfold fill_card
    simp only []
    split <;> simp
  · intro p n e c
    unfold fill_card
    simp only []
    split <;> simp_all
  · intro env uid n e c reg s hs hf hurl hok hexp
    unfold confirm_and_pay
    rw [hs, finalizePhase_evs]
    unfold confirmBody
    rw [hf]
    simp only [hurl, Bool.false_eq_true, if_false]
    have hmem := payAtBank_submit env uid s env.urlAfterSubmit n e c
      (regRemove uid reg) hok
    split <;> simp [hmem]

/-- C10 witness: on a bank page with no locatable expiry field the fill
still returns true (card and CVV found) and the payment is submitted. -/
theorem C10_fill_ok_ignores_expiry_witness :
    ((fill_card bankNoExpiry "4111111111111111" "12/25" "123").card_ok =
        true ∧
      (fill_card bankNoExpiry "4111111111111111" "12/25" "123").cvv_ok =
        true) ∧
    (fill_card bankNoExpiry "4111111111111111" "12/25" "123").expiry_ok =
      false ∧
    Ev.paySubmit ∈
      (confirm_and_pay payEnvNoExpiry 1 "4111111111111111" "12/25" "123"
        regW).2.2 := by
  have h := C10_fill_ok_ignores_expiry
  exact ⟨h.1 bankNoExpiry "4111111111111111" "12/25" "123" (by decide),
    (by decide),
    h.2.2 payEnvNoExpiry 1 "4111111111111111" "12/25" "123" regW sessW
      (by decide) rfl (by decide) (by decide) (by decide)⟩

end Mayak
